import Mathlib

/-!
Shallow embedding of the gtscio/logging core: the `LoggingService`
(packages/logging-service/src/loggingService.ts) and the
`MultiLoggingConnector`
(packages/logging-models/src/connectors/multiLoggingConnector.ts),
together with the small slices of the external collaborator models
(`@gtsc/entity` condition/sort types, `@gtsc/core` guards and errors,
`@gtsc/services` request context) that those two classes consume.

Modelling conventions:
- JavaScript `undefined` for an optional value is `Option.none`.
- A thrown error is `Except.error`; promise resolution is `Except.ok`.
- `Date.now()` is passed in explicitly as a `now : Int` parameter.
- Side effects of sub-connectors are made observable: the `log` of the multiplexer returns, next to the (possibly timestamp-completed) entry, the
  list of the settled outcomes of the sub-connector invocations in
  construction order (empty list = no sub-connector was invoked), and
  its `query` returns, next to the outcome, the number of sub-connectors
  whose `query` was invoked (the first `n` in construction order).
-/

/-- Log severity levels, the `LogLevel` string union of the models package. -/
inductive LogLevel where
  | debug
  | info
  | warn
  | error
  | trace
deriving DecidableEq, Repr

/-- The string a `LogLevel` value is in the TypeScript source, where the
levels are string literals. -/
def LogLevel.render : LogLevel → String
  | .debug => "debug"
  | .info => "info"
  | .warn => "warn"
  | .error => "error"
  | .trace => "trace"

/-- Structured error detail (`IError` of `@gtsc/core`): kind name, message
and an optional nested cause (the `base` constructor is an absent cause,
`causal` a present one). -/
inductive IError where
  | base (name : String) (message : String)
  | causal (name : String) (message : String) (inner : IError)
deriving DecidableEq, Repr

/-- A log entry, from models/ILogEntry.ts. The `data` payload is opaque to
the logging layer and is modelled as an optional string. -/
structure ILogEntry where
  level : LogLevel
  source : String
  ts : Option Int
  message : String
  error : Option IError
  data : Option String
deriving DecidableEq, Repr

/-- Request context (`IRequestContext` of `@gtsc/services`): the tenant
identifier is `none` when the field is missing/undefined. -/
structure IRequestContext where
  tenantId : Option String
deriving DecidableEq, Repr

/-- Errors thrown by this subsystem: the runtime class name of the error
(tested by `BaseError.isErrorName`), the class that raised it, and the
message/property key. -/
structure AppError where
  name : String
  source : String
  message : String
deriving DecidableEq, Repr

/-- The class name of `NotImplementedError` from `@gtsc/core`, as used by
`BaseError.isErrorName(error, NotImplementedError.CLASS_NAME)`. -/
def NotImplementedError.CLASS_NAME : String := "NotImplementedError"

/-- A `NotImplementedError` attributed to `source` for method `method`. -/
def notImplementedError (source method : String) : AppError :=
  { name := NotImplementedError.CLASS_NAME, source := source, message := method }

/-- A guard (validation) failure attributed to `source` for `property`. -/
def guardError (source property : String) : AppError :=
  { name := "GuardError", source := source, message := property }

/-- Test whether an error carries a given runtime class name, the
`BaseError.isErrorName` helper of `@gtsc/core`. -/
def BaseError.isErrorName (e : AppError) (name : String) : Bool :=
  e.name == name

/-- Test for a non-empty string value, the `Is.stringValue` helper of
`@gtsc/core`: true exactly when the value is a string of positive length.
Modelled from the spec: `@gtsc/core` is an external collaborator whose
source is not in this repository; the spec describes this check as the
mandatory "non-empty tenant id" validation. -/
def Is.stringValue : Option String → Bool
  | some s => s.length != 0
  | none => false

namespace Guards

/-- The `Guards.stringValue` validation of `@gtsc/core`: fails with a
validation error unless the value is a non-empty string.
Modelled from the spec: `@gtsc/core` is external; the spec states the
connector validates a non-empty tenant identifier. -/
def stringValue (className property : String) (value : Option String) :
    Except AppError Unit :=
  if Is.stringValue value then Except.ok () else Except.error (guardError className property)

/-- The `Guards.string` validation of `@gtsc/core`, used by the service on
the tenant id. Modelled from the spec: `@gtsc/core` is external; the spec
states the service "validates `context` (non-empty tenant id)", so it is
modelled as the same non-empty string check. -/
def string (className property : String) (value : Option String) :
    Except AppError Unit :=
  if Is.stringValue value then Except.ok () else Except.error (guardError className property)

end Guards

/-- Comparison operators of the `@gtsc/entity` condition model that this
subsystem uses. -/
inductive ComparisonOperator where
  | Equals
  | GreaterThanOrEqual
  | LessThanOrEqual
deriving DecidableEq, Repr

/-- Logical operators of the `@gtsc/entity` condition model. -/
inductive LogicalOperator where
  | And
  | Or
deriving DecidableEq, Repr

/-- A condition value: the service compares string properties and numeric
timestamps. -/
inductive ConditionValue where
  | str (s : String)
  | num (n : Int)
deriving DecidableEq, Repr

/-- A leaf comparison over a named property. -/
structure PropertyCondition where
  property : String
  operator : ComparisonOperator
  value : ConditionValue
deriving DecidableEq, Repr

/-- The condition group built by the service: a list of leaf conditions
joined by a logical operator (`EntityCondition` as this subsystem uses it). -/
structure EntityCondition where
  conditions : List PropertyCondition
  logicalOperator : LogicalOperator
deriving DecidableEq, Repr

/-- Sort direction of the `@gtsc/entity` model. -/
inductive SortDirection where
  | Ascending
  | Descending
deriving DecidableEq, Repr

/-- One sort specification entry: a property name with a direction. -/
structure SortProperty where
  property : String
  sortDirection : SortDirection
deriving DecidableEq, Repr

/-- The paged result returned by connector `query` operations. The service
never requests a projection, so entities are modelled as full entries. -/
structure QueryResult where
  entities : List ILogEntry
  cursor : Option String
  pageSize : Option Int
  totalEntities : Int
deriving DecidableEq, Repr

/-- The non-context arguments of a connector `query` call: conditions,
sort order, requested properties (projection), cursor and page size. -/
structure QueryArgs where
  conditions : Option EntityCondition
  sortProperties : Option (List SortProperty)
  properties : Option (List String)
  cursor : Option String
  pageSize : Option Int
deriving DecidableEq, Repr

/-- A logging connector (`ILoggingConnector`). Modelled from the spec: the
interface declaration file is not among the sources; per the spec a
`log` of a connector performs a side effect and may allocate an identifier,
and its `query` returns a paged result or fails (with the distinguished
not-implemented kind when retrieval is unsupported). A connector instance
is modelled by its two behaviours. -/
structure ILoggingConnector where
  log : IRequestContext → ILogEntry → Except AppError (Option String)
  query : IRequestContext → QueryArgs → Except AppError QueryResult

/-- The multiplexing connector: the resolved sub-connectors in construction
order and the enabled log levels. -/
structure MultiLoggingConnector where
  loggingConnectors : List ILoggingConnector
  levels : List LogLevel

/-- Runtime class name of `MultiLoggingConnector` (`_CLASS_NAME`). -/
def MultiLoggingConnector.CLASS_NAME : String := "MultiLoggingConnector"

/-- The default level set of the multiplexer constructor:
`["debug", "info", "warn", "error", "trace"]`. -/
def allLogLevels : List LogLevel :=
  [.debug, .info, .warn, .error, .trace]

/-- Levels configuration (`ILoggingLevelsConfig`). Modelled from the spec:
its declaration file is not among the sources; the constructor reads
`options?.config?.levels ?? [all levels]`, so `levels` is optional. -/
structure ILoggingLevelsConfig where
  levels : Option (List LogLevel)

/-- The multiplexer constructor: registry lookup of the connector type
names is an external collaborator, so the constructor is modelled as
receiving the already-resolved connector instances in order; the enabled
levels default to all levels (`options?.config?.levels ?? [...]`). -/
def MultiLoggingConnector.ofOptions (loggingConnectors : List ILoggingConnector)
    (config : Option ILoggingLevelsConfig) : MultiLoggingConnector :=
  { loggingConnectors := loggingConnectors
    levels := (config.bind (·.levels)).getD allLogLevels }

/-- MultiLoggingConnector.log (multiLoggingConnector.ts lines 61-83):
validate the tenant id; if the level of the entry is among the enabled levels,
fill a missing timestamp with the current time (`logEntry.ts ??=
Date.now()`) and invoke `log` on every sub-connector, waiting for all to
settle (`Promise.allSettled`) and swallowing individual failures;
otherwise do nothing. Returns the entry as the sub-connectors saw it and
the settled outcomes, one per invoked sub-connector in construction order
(`Guards.object` checks are vacuous in this typed model). -/
def MultiLoggingConnector.log (m : MultiLoggingConnector) (now : Int)
    (requestContext : IRequestContext) (logEntry : ILogEntry) :
    Except AppError (ILogEntry × List (Except AppError (Option String))) :=
  match Guards.stringValue MultiLoggingConnector.CLASS_NAME
      "requestContext.tenantId" requestContext.tenantId with
  | Except.error e => Except.error e
  | Except.ok _ =>
    if logEntry.level ∈ m.levels then
      let stamped : ILogEntry := { logEntry with ts := some (logEntry.ts.getD now) }
      Except.ok (stamped,
        m.loggingConnectors.map fun loggingConnector =>
          loggingConnector.log requestContext stamped)
    else
      Except.ok (logEntry, [])

/-- The probe loop of MultiLoggingConnector.query (multiLoggingConnector.ts
lines 127-145): try the `query` of each sub-connector in order; return the
first success; continue past a failure exactly when its error name is
`NotImplementedError.CLASS_NAME`, otherwise rethrow it; when the list is
exhausted, fail with a not-implemented error attributed to the
multiplexer. The second component counts the sub-connectors whose `query`
was invoked (the first `n` in order). -/
def MultiLoggingConnector.queryLoop :
    List ILoggingConnector → IRequestContext → QueryArgs →
    Except AppError QueryResult × Nat
  | [], _, _ =>
    (Except.error (notImplementedError MultiLoggingConnector.CLASS_NAME "query"), 0)
  | loggingConnector :: rest, requestContext, args =>
    match loggingConnector.query requestContext args with
    | Except.ok result => (Except.ok result, 1)
    | Except.error e =>
      if BaseError.isErrorName e NotImplementedError.CLASS_NAME then
        ((MultiLoggingConnector.queryLoop rest requestContext args).1,
         (MultiLoggingConnector.queryLoop rest requestContext args).2 + 1)
      else
        (Except.error e, 1)

/-- MultiLoggingConnector.query (multiLoggingConnector.ts lines 97-146):
no validation of any kind is performed; the call goes straight to the
probe loop over the sub-connectors in construction order. -/
def MultiLoggingConnector.query (m : MultiLoggingConnector)
    (requestContext : IRequestContext) (args : QueryArgs) :
    Except AppError QueryResult × Nat :=
  MultiLoggingConnector.queryLoop m.loggingConnectors requestContext args

/-- The logging service wraps exactly one connector, held under the
`logging` key of its `_connectors` record. -/
structure LoggingService where
  logging : ILoggingConnector

/-- Runtime class name of `LoggingService` (`_CLASS_NAME`). -/
def LoggingService.CLASS_NAME : String := "LoggingService"

/-- LoggingService.log (loggingService.ts lines 49-62): validate the tenant
id, delegate to the wrapped connector, return the identifier it allocated
(`Guards.object` checks are vacuous in this typed model). -/
def LoggingService.log (svc : LoggingService) (requestContext : IRequestContext)
    (logEntry : ILogEntry) : Except AppError (Option String) :=
  match Guards.string LoggingService.CLASS_NAME
      "requestContext.tenantId" requestContext.tenantId with
  | Except.error e => Except.error e
  | Except.ok _ => svc.logging.log requestContext logEntry

/-- The condition built by LoggingService.query (loggingService.ts lines
110-145): start from an empty `And` group, then push one clause per
convenience parameter that passes its presence check, in the order level,
source, timeStart, timeEnd. The checks are `Is.stringValue(level)` (every
supplied `LogLevel` is a non-empty string literal, so this is presence),
`Is.stringValue(source)` (a supplied empty string fails this check),
`Is.number(timeStart)` and `Is.number(timeEnd)` (presence of a number). -/
def LoggingService.buildCondition (level : Option LogLevel)
    (source : Option String) (timeStart timeEnd : Option Int) : EntityCondition :=
  let conditions : List PropertyCondition := []
  let conditions :=
    match level with
    | some l =>
      conditions ++ [{ property := "level", operator := ComparisonOperator.Equals,
                       value := ConditionValue.str l.render }]
    | none => conditions
  let conditions :=
    if Is.stringValue source then
      conditions ++ [{ property := "source", operator := ComparisonOperator.Equals,
                       value := ConditionValue.str (source.getD "") }]
    else conditions
  let conditions :=
    match timeStart with
    | some t =>
      conditions ++ [{ property := "ts",
                       operator := ComparisonOperator.GreaterThanOrEqual,
                       value := ConditionValue.num t }]
    | none => conditions
  let conditions :=
    match timeEnd with
    | some t =>
      conditions ++ [{ property := "ts",
                       operator := ComparisonOperator.LessThanOrEqual,
                       value := ConditionValue.num t }]
    | none => conditions
  { conditions := conditions, logicalOperator := LogicalOperator.And }

/-- The full argument record LoggingService.query passes to the connector
(loggingService.ts lines 147-159): the built condition, a single-entry
sort specification `ts` descending, `undefined` for the properties
projection, and the cursor and page size of the caller unchanged. -/
def LoggingService.queryArgs (level : Option LogLevel) (source : Option String)
    (timeStart timeEnd : Option Int) (cursor : Option String)
    (pageSize : Option Int) : QueryArgs :=
  { conditions := some (LoggingService.buildCondition level source timeStart timeEnd)
    sortProperties := some [{ property := "ts",
                              sortDirection := SortDirection.Descending }]
    properties := none
    cursor := cursor
    pageSize := pageSize }

/-- LoggingService.query (loggingService.ts lines 77-167): validate the
tenant id, delegate to the wrapped connector with the built arguments,
and return the paged result of the connector rebuilt field by field. -/
def LoggingService.query (svc : LoggingService) (requestContext : IRequestContext)
    (level : Option LogLevel) (source : Option String)
    (timeStart timeEnd : Option Int) (cursor : Option String)
    (pageSize : Option Int) : Except AppError QueryResult :=
  match Guards.string LoggingService.CLASS_NAME
      "requestContext.tenantId" requestContext.tenantId with
  | Except.error e => Except.error e
  | Except.ok _ =>
    match svc.logging.query requestContext
        (LoggingService.queryArgs level source timeStart timeEnd cursor pageSize) with
    | Except.error e => Except.error e
    | Except.ok result =>
      Except.ok { entities := result.entities, cursor := result.cursor,
                  pageSize := result.pageSize, totalEntities := result.totalEntities }

/-- The clause list the specification prescribes for the service query
filter (spec section 4.3 and the testable property on the four ANDed
clauses), written from the words of the spec for comparison with
`LoggingService.buildCondition`: one equality clause per supplied level
and per supplied non-empty source, and one inclusive bound clause per
supplied time endpoint, in the order level, source, timeStart, timeEnd. -/
def specQueryClauses (level : Option LogLevel) (source : Option String)
    (timeStart timeEnd : Option Int) : List PropertyCondition :=
  (match level with
   | some l => [{ property := "level", operator := ComparisonOperator.Equals,
                  value := ConditionValue.str l.render }]
   | none => []) ++
  (match source with
   | some s =>
     if s.length != 0 then
       [{ property := "source", operator := ComparisonOperator.Equals,
          value := ConditionValue.str s }]
     else []
   | none => []) ++
  (match timeStart with
   | some t => [{ property := "ts", operator := ComparisonOperator.GreaterThanOrEqual,
                  value := ConditionValue.num t }]
   | none => []) ++
  (match timeEnd with
   | some t => [{ property := "ts", operator := ComparisonOperator.LessThanOrEqual,
                  value := ConditionValue.num t }]
   | none => [])

/-! Concrete fixtures used to evaluate the definitions on closed inputs. -/

/-- An empty paged result. -/
def emptyQueryResult : QueryResult :=
  { entities := [], cursor := none, pageSize := none, totalEntities := 0 }

/-- A console-like connector: `log` succeeds without allocating an id,
`query` always fails with the not-implemented kind. -/
def consoleConn : ILoggingConnector :=
  { log := fun _ _ => Except.ok none
    query := fun _ _ => Except.error (notImplementedError "ConsoleLoggingConnector" "query") }

/-- A queryable connector: `log` succeeds, `query` returns the empty page. -/
def memoryConn : ILoggingConnector :=
  { log := fun _ _ => Except.ok none
    query := fun _ _ => Except.ok emptyQueryResult }

/-- A failing connector: both operations throw an operational (not
not-implemented) error. -/
def brokenConn : ILoggingConnector :=
  { log := fun _ _ =>
      Except.error { name := "GeneralError", source := "BrokenConnector", message := "log" }
    query := fun _ _ =>
      Except.error { name := "GeneralError", source := "BrokenConnector", message := "query" } }

/-- A context with a non-empty tenant id. -/
def sampleCtx : IRequestContext := { tenantId := some "tenant1" }

/-- A context with the tenant id missing. -/
def noTenantCtx : IRequestContext := { tenantId := none }

/-- An info entry carrying no timestamp. -/
def infoEntryNoTs : ILogEntry :=
  { level := .info, source := "auth", ts := none, message := "hello",
    error := none, data := none }

/-- A debug entry carrying no timestamp. -/
def debugEntryNoTs : ILogEntry :=
  { level := .debug, source := "auth", ts := none, message := "dbg",
    error := none, data := none }

/-- A warn entry that already carries timestamp 7. -/
def warnEntryTs7 : ILogEntry :=
  { level := .warn, source := "auth", ts := some 7, message := "warned",
    error := none, data := none }

/-- Query arguments with everything absent. -/
def emptyQueryArgs : QueryArgs :=
  { conditions := none, sortProperties := none, properties := none,
    cursor := none, pageSize := none }

/-! Theorems. -/

/-- The probe loop passes over a block of connectors that all fail with the
not-implemented kind: it continues into the remainder, adding the skipped
block to the invocation count. -/
theorem queryLoop_skip_notImplemented (pre cs : List ILoggingConnector)
    (ctx : IRequestContext) (args : QueryArgs)
    (h : ∀ d ∈ pre, ∃ e, d.query ctx args = Except.error e ∧
      e.name = NotImplementedError.CLASS_NAME) :
    MultiLoggingConnector.queryLoop (pre ++ cs) ctx args =
      ((MultiLoggingConnector.queryLoop cs ctx args).1,
       pre.length + (MultiLoggingConnector.queryLoop cs ctx args).2) := by
  induction pre with
  | nil => simp
  | cons d ds ih =>
    obtain ⟨e, he, hn⟩ := h d (List.mem_cons_self d ds)
    have hds : ∀ x ∈ ds, ∃ e, x.query ctx args = Except.error e ∧
        e.name = NotImplementedError.CLASS_NAME :=
      fun x hx => h x (List.mem_cons_of_mem d hx)
    simp only [List.cons_append, MultiLoggingConnector.queryLoop, he,
      BaseError.isErrorName, hn, beq_self_eq_true, if_true, List.append_eq,
      ih hds, List.length_cons, Prod.mk.injEq, true_and]
    omega

/-- C2: for every log entry whose level is not in the enabled level set of the multiplexer, `MultiLoggingConnector.log` invokes the `log` of no sub-connector;
the entry is discarded silently (unchanged, with an empty list of
sub-connector invocations) and the call succeeds. -/
theorem multiLog_disabledLevel_noFanout (m : MultiLoggingConnector) (now : Int)
    (ctx : IRequestContext) (entry : ILogEntry)
    (hctx : Is.stringValue ctx.tenantId = true)
    (hlvl : entry.level ∉ m.levels) :
    MultiLoggingConnector.log m now ctx entry = Except.ok (entry, []) := by
  simp [MultiLoggingConnector.log, Guards.stringValue, hctx, hlvl]

/-- Witness for C2: a debug entry against an info-only multiplexer is
discarded with no sub-connector invocation. -/
theorem multiLog_disabledLevel_noFanout_witness :
    MultiLoggingConnector.log ⟨[memoryConn], [LogLevel.info]⟩ 42 sampleCtx debugEntryNoTs =
      Except.ok (debugEntryNoTs, []) :=
  multiLog_disabledLevel_noFanout ⟨[memoryConn], [LogLevel.info]⟩ 42 sampleCtx
    debugEntryNoTs rfl (by decide)

/-- C3 counterexample: an entry with no initial timestamp whose level is
not enabled completes `MultiLoggingConnector.log` successfully and still
carries no timestamp, refuting "for every log entry with no initial
timestamp, after log completes the entry carries a timestamp". -/
theorem multiLog_missingTimestamp_disabledLevel_cex :
    MultiLoggingConnector.log ⟨[memoryConn], [LogLevel.info]⟩ 99 sampleCtx debugEntryNoTs =
      Except.ok (debugEntryNoTs, []) ∧ debugEntryNoTs.ts = none :=
  ⟨rfl, rfl⟩

/-- C3 (amended): for every log entry with no initial timestamp whose level
is in the enabled set, `MultiLoggingConnector.log` stamps the entry with
the current time once, before the fan-out, and every sub-connector
receives the already-stamped entry. -/
theorem multiLog_stampsMissingTimestamp (m : MultiLoggingConnector) (now : Int)
    (ctx : IRequestContext) (entry : ILogEntry)
    (hctx : Is.stringValue ctx.tenantId = true)
    (hlvl : entry.level ∈ m.levels) (hts : entry.ts = none) :
    MultiLoggingConnector.log m now ctx entry =
      Except.ok ({ entry with ts := some now },
        m.loggingConnectors.map fun c =>
          c.log ctx { entry with ts := some now }) := by
  simp [MultiLoggingConnector.log, Guards.stringValue, hctx, hlvl, hts]

/-- Witness for C3 (amended): an info entry with no timestamp is stamped
with the supplied current time 77 before being handed to the
sub-connector. -/
theorem multiLog_stampsMissingTimestamp_witness :
    MultiLoggingConnector.log ⟨[memoryConn], allLogLevels⟩ 77 sampleCtx infoEntryNoTs =
      Except.ok ({ infoEntryNoTs with ts := some 77 },
        [memoryConn].map fun c => c.log sampleCtx { infoEntryNoTs with ts := some 77 }) :=
  multiLog_stampsMissingTimestamp ⟨[memoryConn], allLogLevels⟩ 77 sampleCtx
    infoEntryNoTs rfl (by decide) rfl

/-- C9: a timestamp already present on a log entry is never overwritten by
`MultiLoggingConnector.log`: the entry is passed through (and handed to
the sub-connectors, when its level is enabled) exactly as it came in. -/
theorem multiLog_preservesTimestamp (m : MultiLoggingConnector) (now : Int)
    (ctx : IRequestContext) (entry : ILogEntry) (t : Int)
    (hctx : Is.stringValue ctx.tenantId = true)
    (hts : entry.ts = some t) :
    MultiLoggingConnector.log m now ctx entry =
      Except.ok (entry,
        if entry.level ∈ m.levels then
          m.loggingConnectors.map fun c => c.log ctx entry
        else []) := by
  have hstamp : ({ entry with ts := some (entry.ts.getD now) } : ILogEntry) = entry := by
    obtain ⟨lv, sr, ts0, ms, er, da⟩ := entry
    simp_all
  simp only [MultiLoggingConnector.log, Guards.stringValue, hctx, if_true, hstamp]
  split <;> simp [*]

/-- Witness for C9: a warn entry with timestamp 7 keeps timestamp 7 through
a fan-out at current time 1000. -/
theorem multiLog_preservesTimestamp_witness :
    MultiLoggingConnector.log ⟨[memoryConn], allLogLevels⟩ 1000 sampleCtx warnEntryTs7 =
      Except.ok (warnEntryTs7,
        if warnEntryTs7.level ∈ allLogLevels then
          [memoryConn].map fun c => c.log sampleCtx warnEntryTs7
        else []) :=
  multiLog_preservesTimestamp ⟨[memoryConn], allLogLevels⟩ 1000 sampleCtx
    warnEntryTs7 7 rfl rfl

/-- C7: for every entry whose level is enabled, `MultiLoggingConnector.log`
invokes `log` on every sub-connector with the timestamp-completed entry,
collects every settled outcome, and resolves successfully regardless of
individual failures (the result is `ok` whatever the outcome list holds). -/
theorem multiLog_fanoutAllSettled (m : MultiLoggingConnector) (now : Int)
    (ctx : IRequestContext) (entry : ILogEntry)
    (hctx : Is.stringValue ctx.tenantId = true)
    (hlvl : entry.level ∈ m.levels) :
    MultiLoggingConnector.log m now ctx entry =
      Except.ok ({ entry with ts := some (entry.ts.getD now) },
        m.loggingConnectors.map fun c =>
          c.log ctx { entry with ts := some (entry.ts.getD now) }) := by
  simp [MultiLoggingConnector.log, Guards.stringValue, hctx, hlvl]

/-- Witness for C7: a fan-out over a succeeding and a throwing connector
resolves successfully; the settled outcomes show the first write took
place and the second failure was swallowed. -/
theorem multiLog_fanoutAllSettled_witness :
    MultiLoggingConnector.log ⟨[memoryConn, brokenConn], allLogLevels⟩ 5 sampleCtx infoEntryNoTs =
      Except.ok ({ infoEntryNoTs with ts := some 5 },
        [Except.ok none,
         Except.error { name := "GeneralError", source := "BrokenConnector", message := "log" }]) :=
  multiLog_fanoutAllSettled ⟨[memoryConn, brokenConn], allLogLevels⟩ 5 sampleCtx
    infoEntryNoTs rfl (by decide)

/-- C4: for a multiplexer with sub-connectors [A, B, C] where the query of A
fails with the not-implemented kind and the query of B succeeds,
`MultiLoggingConnector.query` returns the result of B unchanged after
invoking exactly the first two sub-connectors, so the query of C is never
invoked. -/
theorem multiQuery_firstResponderWins (A B C : ILoggingConnector)
    (levels : List LogLevel) (ctx : IRequestContext) (args : QueryArgs)
    (e : AppError) (r : QueryResult)
    (hA : A.query ctx args = Except.error e)
    (he : e.name = NotImplementedError.CLASS_NAME)
    (hB : B.query ctx args = Except.ok r) :
    MultiLoggingConnector.query ⟨[A, B, C], levels⟩ ctx args = (Except.ok r, 2) := by
  simp [MultiLoggingConnector.query, MultiLoggingConnector.queryLoop, hA, hB,
    BaseError.isErrorName, he]

/-- Witness for C4: console (not implemented), then memory (succeeds), then
broken (would throw): the memory result comes back after two probes. -/
theorem multiQuery_firstResponderWins_witness :
    MultiLoggingConnector.query ⟨[consoleConn, memoryConn, brokenConn], allLogLevels⟩
      sampleCtx emptyQueryArgs = (Except.ok emptyQueryResult, 2) :=
  multiQuery_firstResponderWins consoleConn memoryConn brokenConn allLogLevels
    sampleCtx emptyQueryArgs (notImplementedError "ConsoleLoggingConnector" "query")
    emptyQueryResult rfl rfl rfl

/-- C5: when the query of every sub-connector fails with the not-implemented
kind, `MultiLoggingConnector.query` attempts all of them in construction
order and then fails with a not-implemented error attributed to the
multiplexer itself. -/
theorem multiQuery_allNotImplemented (cs : List ILoggingConnector)
    (levels : List LogLevel) (ctx : IRequestContext) (args : QueryArgs)
    (h : ∀ c ∈ cs, ∃ e, c.query ctx args = Except.error e ∧
      e.name = NotImplementedError.CLASS_NAME) :
    MultiLoggingConnector.query ⟨cs, levels⟩ ctx args =
      (Except.error (notImplementedError MultiLoggingConnector.CLASS_NAME "query"),
       cs.length) := by
  have hl := queryLoop_skip_notImplemented cs [] ctx args h
  simpa [MultiLoggingConnector.query, MultiLoggingConnector.queryLoop] using hl

/-- Witness for C5: two console-like sub-connectors, both not implemented:
the multiplexer fails with its own not-implemented error after two
attempts. -/
theorem multiQuery_allNotImplemented_witness :
    MultiLoggingConnector.query ⟨[consoleConn, consoleConn], allLogLevels⟩
      sampleCtx emptyQueryArgs =
      (Except.error (notImplementedError MultiLoggingConnector.CLASS_NAME "query"), 2) :=
  multiQuery_allNotImplemented [consoleConn, consoleConn] allLogLevels sampleCtx
    emptyQueryArgs (by
      intro c hc
      simp only [List.mem_cons, List.not_mem_nil, or_false] at hc
      rcases hc with h | h <;> subst h <;>
        exact ⟨notImplementedError "ConsoleLoggingConnector" "query", rfl, rfl⟩)

/-- C6: when the query of a sub-connector fails with an error that is not the
not-implemented kind (after any block of not-implemented failures before
it), `MultiLoggingConnector.query` propagates that error immediately: only
the connectors up to and including the failing one are invoked, so the
query of no later sub-connector runs. -/
theorem multiQuery_operationalErrorPropagates (pre post : List ILoggingConnector)
    (c : ILoggingConnector) (levels : List LogLevel) (ctx : IRequestContext)
    (args : QueryArgs) (e : AppError)
    (hpre : ∀ d ∈ pre, ∃ e2, d.query ctx args = Except.error e2 ∧
      e2.name = NotImplementedError.CLASS_NAME)
    (hc : c.query ctx args = Except.error e)
    (hne : e.name ≠ NotImplementedError.CLASS_NAME) :
    MultiLoggingConnector.query ⟨pre ++ c :: post, levels⟩ ctx args =
      (Except.error e, pre.length + 1) := by
  have h1 := queryLoop_skip_notImplemented pre (c :: post) ctx args hpre
  have h2 : MultiLoggingConnector.queryLoop (c :: post) ctx args = (Except.error e, 1) := by
    have hbeq : (e.name == NotImplementedError.CLASS_NAME) = false := by
      simpa using hne
    simp [MultiLoggingConnector.queryLoop, hc, BaseError.isErrorName, hbeq]
  simp [MultiLoggingConnector.query, h1, h2]

/-- Witness for C6: console (not implemented), then broken (operational
error), then memory (would succeed): the error of the broken connector comes
back after two probes, so the memory connector is never asked. -/
theorem multiQuery_operationalErrorPropagates_witness :
    MultiLoggingConnector.query ⟨[consoleConn, brokenConn, memoryConn], allLogLevels⟩
      sampleCtx emptyQueryArgs =
      (Except.error { name := "GeneralError", source := "BrokenConnector",
                      message := "query" }, 2) :=
  multiQuery_operationalErrorPropagates [consoleConn] [memoryConn] brokenConn
    allLogLevels sampleCtx emptyQueryArgs
    { name := "GeneralError", source := "BrokenConnector", message := "query" }
    (by
      intro d hd
      simp only [List.mem_cons, List.not_mem_nil, or_false] at hd
      subst hd
      exact ⟨notImplementedError "ConsoleLoggingConnector" "query", rfl, rfl⟩)
    rfl (by decide)

/-- C8 counterexample: `MultiLoggingConnector.query` performs no tenant
validation: with an empty tenant id (which `Is.stringValue` rejects) the
call does not fail with a validation error — it succeeds with the
result of the sub-connector after invoking one sub-connector. -/
theorem multiQuery_noValidation_cex :
    Is.stringValue (IRequestContext.mk (some "")).tenantId = false ∧
    MultiLoggingConnector.query ⟨[memoryConn], allLogLevels⟩
      { tenantId := some "" } emptyQueryArgs = (Except.ok emptyQueryResult, 1) :=
  ⟨rfl, rfl⟩

/-- C8 (amended): for every call to `log` or `query` on the LoggingService
and to `log` on the MultiLoggingConnector with a context whose tenant id
is missing or empty, the call fails with a validation error — for every
connector behaviour, so before any connector operation is invoked.
`MultiLoggingConnector.query` performs no such validation (see the
counterexample). -/
theorem tenantValidation_beforeConnector (ctx : IRequestContext)
    (h : Is.stringValue ctx.tenantId = false) :
    (∀ (svc : LoggingService) (entry : ILogEntry),
      LoggingService.log svc ctx entry =
        Except.error (guardError LoggingService.CLASS_NAME "requestContext.tenantId")) ∧
    (∀ (svc : LoggingService) (level : Option LogLevel) (source : Option String)
        (timeStart timeEnd : Option Int) (cursor : Option String) (pageSize : Option Int),
      LoggingService.query svc ctx level source timeStart timeEnd cursor pageSize =
        Except.error (guardError LoggingService.CLASS_NAME "requestContext.tenantId")) ∧
    (∀ (m : MultiLoggingConnector) (now : Int) (entry : ILogEntry),
      MultiLoggingConnector.log m now ctx entry =
        Except.error (guardError MultiLoggingConnector.CLASS_NAME "requestContext.tenantId")) := by
  refine ⟨?_, ?_, ?_⟩ <;> intros <;>
    simp [LoggingService.log, LoggingService.query, MultiLoggingConnector.log,
      Guards.string, Guards.stringValue, h]

/-- Witness for C8 (amended): a context with the tenant id missing makes
the log of the service fail with the validation error. -/
theorem tenantValidation_beforeConnector_witness :
    LoggingService.log ⟨memoryConn⟩ noTenantCtx infoEntryNoTs =
      Except.error (guardError LoggingService.CLASS_NAME "requestContext.tenantId") :=
  (tenantValidation_beforeConnector noTenantCtx rfl).1 ⟨memoryConn⟩ infoEntryNoTs

/-- C1 counterexample: with all four convenience parameters supplied but
the source the empty string, the built filter has three clauses, not the
four the claim requires for four supplied parameters ("" fails the
`Is.stringValue` presence check of the code). -/
theorem loggingService_query_emptySource_cex :
    (LoggingService.buildCondition (some LogLevel.error) (some "") (some 100)
        (some 200)).conditions.length = 3 ∧ (3 : Nat) ≠ 4 :=
  ⟨rfl, by decide⟩

/-- C1 (amended): for every call to `LoggingService.query` with a valid
tenant id, the call delegates to the connector with exactly
`LoggingService.queryArgs`; the filter in those arguments is a
conjunction holding exactly one clause per supplied parameter — level
equality, source equality, ts lower bound, ts upper bound, in that
order — except that a supplied source that is the empty string
contributes no clause, like an omitted one (each omitted parameter also
contributes no clause); the sort specification is exactly one entry, ts
descending, and no property projection is requested. -/
theorem loggingService_query_filter (svc : LoggingService) (ctx : IRequestContext)
    (level : Option LogLevel) (source : Option String)
    (timeStart timeEnd : Option Int) (cursor : Option String) (pageSize : Option Int)
    (hctx : Is.stringValue ctx.tenantId = true) :
    LoggingService.query svc ctx level source timeStart timeEnd cursor pageSize =
      svc.logging.query ctx
        (LoggingService.queryArgs level source timeStart timeEnd cursor pageSize) ∧
    LoggingService.buildCondition level source timeStart timeEnd =
      { conditions := specQueryClauses level source timeStart timeEnd,
        logicalOperator := LogicalOperator.And } ∧
    (LoggingService.queryArgs level source timeStart timeEnd cursor pageSize).sortProperties =
      some [{ property := "ts", sortDirection := SortDirection.Descending }] ∧
    (LoggingService.queryArgs level source timeStart timeEnd cursor pageSize).properties =
      none := by
  refine ⟨?_, ?_, rfl, rfl⟩
  · simp only [LoggingService.query, Guards.string, hctx, if_true]
    cases hq : svc.logging.query ctx
        (LoggingService.queryArgs level source timeStart timeEnd cursor pageSize) with
    | error e => rfl
    | ok r => rfl
  · cases source with
    | none =>
      cases level <;> cases timeStart <;> cases timeEnd <;>
        simp [LoggingService.buildCondition, specQueryClauses, Is.stringValue]
    | some s =>
      by_cases hs : s.length = 0 <;>
        cases level <;> cases timeStart <;> cases timeEnd <;>
        simp [LoggingService.buildCondition, specQueryClauses, Is.stringValue, hs]

/-- Witness for C1 (amended): all four parameters supplied with source
"auth": the built condition equals the four prescribed clauses under And. -/
theorem loggingService_query_filter_witness :
    LoggingService.buildCondition (some LogLevel.error) (some "auth") (some 100) (some 200) =
      { conditions := specQueryClauses (some LogLevel.error) (some "auth") (some 100) (some 200),
        logicalOperator := LogicalOperator.And } :=
  (loggingService_query_filter ⟨memoryConn⟩ sampleCtx (some LogLevel.error)
    (some "auth") (some 100) (some 200) none none rfl).2.1

/-- C10: when every convenience parameter is omitted, the service still
passes a condition object — an And node with an empty clause list — and
the properties projection it passes is always absent; with a valid tenant
id the connector receives exactly these arguments. -/
theorem loggingService_query_emptyFilter :
    (∀ (cursor : Option String) (pageSize : Option Int),
      (LoggingService.queryArgs none none none none cursor pageSize).conditions =
        some { conditions := [], logicalOperator := LogicalOperator.And }) ∧
    (∀ (level : Option LogLevel) (source : Option String) (timeStart timeEnd : Option Int)
        (cursor : Option String) (pageSize : Option Int),
      (LoggingService.queryArgs level source timeStart timeEnd cursor pageSize).properties =
        none) ∧
    (∀ (svc : LoggingService) (ctx : IRequestContext) (cursor : Option String)
        (pageSize : Option Int), Is.stringValue ctx.tenantId = true →
      LoggingService.query svc ctx none none none none cursor pageSize =
        svc.logging.query ctx (LoggingService.queryArgs none none none none cursor pageSize)) := by
  refine ⟨fun _ _ => rfl, fun _ _ _ _ _ _ => rfl, fun svc ctx cursor pageSize hctx => ?_⟩
  simp only [LoggingService.query, Guards.string, hctx, if_true]
  cases hq : svc.logging.query ctx
      (LoggingService.queryArgs none none none none cursor pageSize) with
  | error e => rfl
  | ok r => rfl

/-- Witness for C10: with everything omitted and a valid tenant, the
service call equals the connector call on the empty And filter. -/
theorem loggingService_query_emptyFilter_witness :
    LoggingService.query ⟨memoryConn⟩ sampleCtx none none none none none none =
      (LoggingService.mk memoryConn).logging.query sampleCtx
        (LoggingService.queryArgs none none none none none none) :=
  loggingService_query_emptyFilter.2.2 ⟨memoryConn⟩ sampleCtx none none rfl
